import Mathlib

/-!
Verification of the Park-Spotter frontend polling loop (src/App.js).

Shallow embedding of the `App` component's core logic:
the `fetchSpots` function (App.js lines 67-107), the timer driver
(lines 110-124), the geofence-entry driver (lines 51-64, 126-146,
with the location service modelled from the spec since
frontend/locationservice.js is not part of the sources), the token
registration effect (lines 31-48) and the background fetch task
(lines 156-173).

HTTP requests are modelled by their observable outcome: the `fetch`
promise rejecting (network failure), `response.text()` rejecting,
`JSON.parse` throwing (malformed body), or a parsed body carrying the
numeric count field.  A non-success HTTP status does not reject in JS
`fetch`; its body flows into the same text/parse chain, so it is covered
by the `parseError`/`success` outcomes.  Counts are `Int` since the code
performs no validation on the parsed field.  Side effects are collected
into an event trace; state updates are explicit state passing.
-/

namespace ParkSpotter

/-- Observable outcome of one HTTP GET sub-request chain
`fetch(url).then(r => r.text()).then(JSON.parse).then(data => ...)`. -/
inductive FetchOutcome where
  | networkError : FetchOutcome
  | bodyError : FetchOutcome
  | parseError : FetchOutcome
  | success : Int → FetchOutcome
deriving DecidableEq, Repr

/-- `true` on the outcomes that make the promise chain reject before the
assignment to the local variable. -/
def FetchOutcome.isFailure : FetchOutcome → Bool
  | .networkError => true
  | .bodyError => true
  | .parseError => true
  | .success _ => false

/-- Error class of a rejected promise in the fetch chain (spec §7 FetchError). -/
inductive FetchError where
  | network : FetchError
  | body : FetchError
  | parse : FetchError
deriving DecidableEq, Repr

/-- The un-caught promise chain of one sub-request: rejects with the
corresponding `FetchError`, or resolves with the parsed count field
(`data.free_spots` resp. `data.free_handicap_spots`). -/
def requestChain : FetchOutcome → Except FetchError Int
  | .networkError => .error .network
  | .bodyError => .error .body
  | .parseError => .error .parse
  | .success n => .ok n

/-- The trailing `.catch((error) => { console.error(...) })` of each chain:
the error is logged and swallowed, so the local variable keeps the value it
had before the chain ran (`init`, which is `0` in `fetchSpots`). -/
def catchLog (init : Int) : Except FetchError Int → Int
  | .ok n => n
  | .error _ => init

/-- React component state relevant to the polling loop:
`spots`/`handicapSpots` from `useState(0)` (App.js lines 24-25) and
`isInside` from `useState(false)` (line 28). -/
structure AppState where
  spots : Int
  handicapSpots : Int
  isInside : Bool
deriving DecidableEq, Repr

/-- Initial component state: `useState(0)`, `useState(0)`, `useState(false)`. -/
def initialState : AppState := { spots := 0, handicapSpots := 0, isInside := false }

/-- Observable side effects of the loop, in program order. -/
inductive Event where
  | fetchGeneral : FetchOutcome → Event
  | fetchAccessible : FetchOutcome → Event
  | setSpots : Int → Event
  | setHandicapSpots : Int → Event
  | notify : Int → Int → Event
  | postToken : String → Event
deriving DecidableEq, Repr

/-- `fetchSpots` (App.js lines 67-107), as an async function returning the
updated component state and its side-effect trace; a rejection of the async
function would be `.error`.  Both request chains carry their own `.catch`,
the two `set*` calls and the guarded `schedulePushNotification` call follow
in program order.  `schedulePushNotification` resolves (delivery failures
are handled inside the dispatcher, spec §4.3). -/
def fetchSpotsE (st : AppState) (oGen oAcc : FetchOutcome) :
    Except FetchError (AppState × List Event) := do
  -- let spots = 0; await fetch(PARKINGSPOTS_URL)...catch(...)
  let spots := catchLog 0 (requestChain oGen)
  -- let handicapSpots = 0; await fetch(HANDICAP_PARKINGSPOTS_URL)...catch(...)
  let handicapSpots := catchLog 0 (requestChain oAcc)
  -- setSpots(spots); setHandicapSpots(handicapSpots)
  let st' : AppState := { st with spots := spots, handicapSpots := handicapSpots }
  -- if (isInside) { await schedulePushNotification(spots, handicapSpots) }
  let trace : List Event :=
    [Event.fetchGeneral oGen, Event.fetchAccessible oAcc,
     Event.setSpots spots, Event.setHandicapSpots handicapSpots] ++
    (if st.isInside then [Event.notify spots handicapSpots] else [])
  pure (st', trace)

/-- The completed `fetchSpots` call: state and trace it produces
(total because every chain is caught; see `fetchSpotsE`). -/
def fetchSpots (st : AppState) (oGen oAcc : FetchOutcome) : AppState × List Event :=
  match fetchSpotsE st oGen oAcc with
  | .ok r => r
  | .error _ => (st, [])

/-- Timer driver (App.js line 120): `setInterval(fetchSpots, 10000)`;
each fire performs the full `fetchSpots` cycle. -/
def onTimerTick (st : AppState) (oGen oAcc : FetchOutcome) : AppState × List Event :=
  fetchSpots st oGen oAcc

/-- Interval passed to `setInterval` (App.js line 120), in milliseconds. -/
def pollIntervalMs : Nat := 10000

/-- `minimumInterval` hint passed to `BackgroundFetch.registerTaskAsync`
(App.js lines 114-116). -/
def backgroundFetchMinimumInterval : Nat := 1

/-- Modelled from the spec: `startBackgroundLocationTracking`
(frontend/locationservice.js, not among the sources) delivers location
samples; the Geofence Monitor is edge-triggered, calling the
inside-state callback with the new boolean and, on the "entered"
transition (false → true, including a first sample inside), immediately
calling the first-visit callback, which App.js binds to
`() => fetchSpots()` (lines 128-130, 52-55). -/
def onLocationSample (st : AppState) (insideNow : Bool) (oGen oAcc : FetchOutcome) :
    AppState × List Event :=
  let wasInside := st.isInside
  -- onLocationChange = (isInsideGeofence) => setIsInside(isInsideGeofence)
  let st1 : AppState := { st with isInside := insideNow }
  if !wasInside && insideNow then
    -- "entered" transition: onFirstVisit = () => fetchSpots(), out-of-band
    fetchSpots st1 oGen oAcc
  else
    (st1, [])

/-- `BackgroundFetch.BackgroundFetchResult` values used by the task. -/
inductive BackgroundFetchResult where
  | newData : BackgroundFetchResult
  | failed : BackgroundFetchResult
deriving DecidableEq, Repr

/-- Background fetch task callback (App.js lines 159-173):
`try { await fetchSpots(); return NewData } catch { return Failed }`. -/
def backgroundTask (st : AppState) (oGen oAcc : FetchOutcome) :
    (AppState × List Event) × BackgroundFetchResult :=
  match fetchSpotsE st oGen oAcc with
  | .ok r => (r, .newData)
  | .error _ => ((st, []), .failed)

/-- Token-registration effect (App.js lines 31-48): awaits
`registerForPushNotificationsAsync()` (frontend/notifications.js, not
among the sources; per the spec it yields the opaque DeviceToken) and
issues one HTTP POST to `SERVER_URL` with JSON body `{ token }`. -/
def registerTokenEffect (tok : String) : List Event :=
  [Event.postToken tok]

/-- Run a sequence of polls: each element gives the outcomes of the two
sub-requests of one `fetchSpots` invocation. -/
def runPolls (st : AppState) (polls : List (FetchOutcome × FetchOutcome)) : AppState :=
  polls.foldl (fun s p => (fetchSpots s p.1 p.2).1) st

/-- Concatenated side-effect trace of a sequence of polls. -/
def pollsTrace (st : AppState) (polls : List (FetchOutcome × FetchOutcome)) : List Event :=
  match polls with
  | [] => []
  | p :: rest =>
    (fetchSpots st p.1 p.2).2 ++ pollsTrace (fetchSpots st p.1 p.2).1 rest

/-- Whole-process trace: the mount effects run once (`useEffect` with `[]`
dependencies, App.js lines 31-48 and 110-124), then any number of polls. -/
def lifetimeTrace (tok : String) (st : AppState)
    (polls : List (FetchOutcome × FetchOutcome)) : List Event :=
  registerTokenEffect tok ++ pollsTrace st polls

/-- Recognize a notification event. -/
def Event.isNotify : Event → Bool
  | .notify _ _ => true
  | _ => false

/-- Recognize a token-registration POST. -/
def Event.isPostToken : Event → Bool
  | .postToken _ => true
  | _ => false

/-- Phase of an event inside one poll cycle: sub-request chains (0),
state updates (1), notification (2). -/
def Event.phase : Event → Nat
  | .fetchGeneral _ => 0
  | .fetchAccessible _ => 0
  | .setSpots _ => 1
  | .setHandicapSpots _ => 1
  | .notify _ _ => 2
  | .postToken _ => 0

/-- `true` when the outcome, if it is a parsed body, carries a
non-negative count field. -/
def FetchOutcome.nonNeg : FetchOutcome → Bool
  | .success n => decide (0 ≤ n)
  | _ => true

/-- The poll traces contain no token-registration POST. -/
lemma pollsTrace_filter_postToken (st : AppState)
    (polls : List (FetchOutcome × FetchOutcome)) :
    (pollsTrace st polls).filter Event.isPostToken = [] := by
  induction polls generalizing st with
  | nil => rfl
  | cons p rest ih =>
    simp only [pollsTrace, List.filter_append, ih, List.append_nil]
    rcases p with ⟨oG, oA⟩
    cases h : st.isInside <;>
      simp [fetchSpots, fetchSpotsE, h, Event.isPostToken, List.filter, pure, Except.pure]

/-- C1 counterexample: with a previously cached accessible count of 7, a
response `{free_spots: 5}` for the general endpoint combined with a network
error for the accessible endpoint yields `accessibleFree = 0`, not the
previous value 7 — the failed sub-count does not retain its prior cached
value. -/
theorem C1_counterexample :
    ((fetchSpots ⟨3, 7, false⟩ (.success 5) .networkError).1).spots = 5 ∧
    ((fetchSpots ⟨3, 7, false⟩ (.success 5) .networkError).1).handicapSpots = 0 ∧
    ((fetchSpots ⟨3, 7, false⟩ (.success 5) .networkError).1).handicapSpots ≠ 7 := by
  decide

/-- C1 (amended): when one sub-request of `fetchSpots` fails while the other
succeeds — in either direction — the call still completes and applies the
available count, but the failed sub-count is reset to 0 (the local
variable's initial value), not the prior cached value; in particular
`{free_spots: 5}` plus a network error for the accessible endpoint yields
`{generalFree: 5, accessibleFree: 0}` regardless of the previous state, and
symmetrically a failed general sub-request with a successful accessible one
yields `{generalFree: 0, accessibleFree: <parsed value>}`. -/
theorem C1_failed_subcount_resets_to_zero (st : AppState) (n : Int)
    (o : FetchOutcome) (h : o.isFailure = true) :
    (((fetchSpots st (.success n) o).1).spots = n ∧
      ((fetchSpots st (.success n) o).1).handicapSpots = 0) ∧
    (((fetchSpots st o (.success n)).1).spots = 0 ∧
      ((fetchSpots st o (.success n)).1).handicapSpots = n) := by
  cases o <;> simp_all [fetchSpots, fetchSpotsE, FetchOutcome.isFailure,
    requestChain, catchLog, pure, Except.pure]

/-- C1 witness: the amended statement at parsed count 5, cached state
`⟨3, 7, false⟩` and a network error for the other endpoint, covering both
directions. -/
theorem C1_failed_subcount_resets_to_zero_witness :
    FetchOutcome.isFailure .networkError = true ∧
    ((((fetchSpots ⟨3, 7, false⟩ (.success 5) .networkError).1).spots = 5 ∧
        ((fetchSpots ⟨3, 7, false⟩ (.success 5) .networkError).1).handicapSpots = 0) ∧
      (((fetchSpots ⟨3, 7, false⟩ .networkError (.success 5)).1).spots = 0 ∧
        ((fetchSpots ⟨3, 7, false⟩ .networkError (.success 5)).1).handicapSpots = 5)) :=
  ⟨by decide, C1_failed_subcount_resets_to_zero ⟨3, 7, false⟩ 5 .networkError (by decide)⟩

/-- C2: on every completed `fetchSpots` invocation, exactly one push
notification is sent when `isInside` is true at that poll and none when it
is false — being inside is the complete gating condition, with no
de-duplication or suppression. -/
theorem C2_notify_iff_inside (st : AppState) (oGen oAcc : FetchOutcome) :
    (((fetchSpots st oGen oAcc).2).filter Event.isNotify).length =
      (if st.isInside then 1 else 0) := by
  cases h : st.isInside <;>
    simp [fetchSpots, fetchSpotsE, h, Event.isNotify, List.filter, pure, Except.pure]

/-- C3 counterexample: after a successful poll establishing counts (4, 9),
a poll in which both sub-requests fail regresses both counts to 0 instead
of holding the last good values 4 and 9; moreover the code applies the
parsed count field without validation, so a response `{free_spots: -3}`
leaves a negative value in the UI state, refuting unconditional
non-negativity as well. -/
theorem C3_counterexample :
    (runPolls initialState [(.success 4, .success 9)]).spots = 4 ∧
    (runPolls initialState [(.success 4, .success 9)]).handicapSpots = 9 ∧
    (runPolls initialState
      [(.success 4, .success 9), (.networkError, .networkError)]).spots = 0 ∧
    (runPolls initialState
      [(.success 4, .success 9), (.networkError, .networkError)]).handicapSpots = 0 ∧
    (runPolls initialState [(.success (-3), .success 9)]).spots = -3 ∧
    (runPolls initialState [(.success (-3), .success 9)]).spots < 0 := by
  decide

/-- C3 (amended): after any sequence of polls, each count equals exactly the
value parsed by the last poll's corresponding sub-request, with 0
substituted for a failed sub-request — independent of all earlier polls;
consequently a fetch failure resets the affected count to 0 rather than
retaining the last good value, and the counts are non-negative whenever the
last poll's successfully parsed values are (the code stores the parsed
field without validation, so negative server values pass through). -/
theorem C3_counts_from_last_poll (st : AppState)
    (polls : List (FetchOutcome × FetchOutcome)) (pGen pAcc : FetchOutcome)
    (hG : pGen.nonNeg = true) (hA : pAcc.nonNeg = true) :
    (runPolls st (polls ++ [(pGen, pAcc)])).spots = catchLog 0 (requestChain pGen) ∧
    (runPolls st (polls ++ [(pGen, pAcc)])).handicapSpots =
      catchLog 0 (requestChain pAcc) ∧
    0 ≤ (runPolls st (polls ++ [(pGen, pAcc)])).spots ∧
    0 ≤ (runPolls st (polls ++ [(pGen, pAcc)])).handicapSpots ∧
    (pGen.isFailure = true → (runPolls st (polls ++ [(pGen, pAcc)])).spots = 0) ∧
    (pAcc.isFailure = true →
      (runPolls st (polls ++ [(pGen, pAcc)])).handicapSpots = 0) := by
  have hrun : runPolls st (polls ++ [(pGen, pAcc)]) =
      (fetchSpots (runPolls st polls) pGen pAcc).1 := by
    simp [runPolls, List.foldl_append]
  rw [hrun]
  cases pGen <;> cases pAcc <;>
    simp_all [fetchSpots, fetchSpotsE, FetchOutcome.isFailure, FetchOutcome.nonNeg,
      requestChain, catchLog, pure, Except.pure]

/-- C3 witness: the amended statement after a good poll (4, 9) followed by a
poll with a failed general sub-request and accessible count 2. -/
theorem C3_counts_from_last_poll_witness :
    FetchOutcome.nonNeg .networkError = true ∧
    FetchOutcome.nonNeg (.success 2) = true ∧
    ((runPolls initialState
        ([(.success 4, .success 9)] ++ [(.networkError, .success 2)])).spots =
        catchLog 0 (requestChain .networkError) ∧
      (runPolls initialState
        ([(.success 4, .success 9)] ++ [(.networkError, .success 2)])).handicapSpots =
        catchLog 0 (requestChain (.success 2)) ∧
      0 ≤ (runPolls initialState
        ([(.success 4, .success 9)] ++ [(.networkError, .success 2)])).spots ∧
      0 ≤ (runPolls initialState
        ([(.success 4, .success 9)] ++ [(.networkError, .success 2)])).handicapSpots ∧
      (FetchOutcome.isFailure .networkError = true →
        (runPolls initialState
          ([(.success 4, .success 9)] ++ [(.networkError, .success 2)])).spots = 0) ∧
      (FetchOutcome.isFailure (.success 2) = true →
        (runPolls initialState
          ([(.success 4, .success 9)] ++ [(.networkError, .success 2)])).handicapSpots = 0)) :=
  ⟨by decide, by decide,
    C3_counts_from_last_poll initialState [(.success 4, .success 9)]
      .networkError (.success 2) (by decide) (by decide)⟩

/-- C4: for every outcome of the two HTTP requests (network failure,
non-success status flowing into the body/parse chain, malformed body, or
success), the async `fetchSpots` resolves — no `FetchError` escapes past its
`.catch`, so no failure propagates to the caller. -/
theorem C4_never_throws (st : AppState) (oGen oAcc : FetchOutcome) :
    fetchSpotsE st oGen oAcc = .ok (fetchSpots st oGen oAcc) := by
  rfl

/-- C5: on a Geofence Monitor "entered" transition (a sample flipping
`isInside` from false to true), the first-visit callback immediately runs
`fetchSpots` out-of-band, producing exactly the state update and
side-effect trace of a timer-driven poll from the updated state. -/
theorem C5_entry_triggers_immediate_fetch (st : AppState) (oGen oAcc : FetchOutcome)
    (h : st.isInside = false) :
    onLocationSample st true oGen oAcc =
      onTimerTick { st with isInside := true } oGen oAcc := by
  simp [onLocationSample, onTimerTick, h]

/-- C5 witness: the entered transition from the initial (outside) state
with both sub-requests succeeding. -/
theorem C5_entry_triggers_immediate_fetch_witness :
    initialState.isInside = false ∧
    onLocationSample initialState true (.success 5) (.success 2) =
      onTimerTick { initialState with isInside := true } (.success 5) (.success 2) :=
  ⟨by decide,
    C5_entry_triggers_immediate_fetch initialState (.success 5) (.success 2) (by decide)⟩

/-- C6: the timer driver fires `fetchSpots` every 10000 ms (~10 seconds),
the background fetch task is registered with `minimumInterval: 1` (the
platform minimum-interval hint), and each timer fire performs the full
fetch-and-update cycle. -/
theorem C6_timer_configuration :
    pollIntervalMs = 10 * 1000 ∧ backgroundFetchMinimumInterval = 1 ∧
    ∀ (st : AppState) (oGen oAcc : FetchOutcome),
      onTimerTick st oGen oAcc = fetchSpots st oGen oAcc := by
  refine ⟨rfl, rfl, fun st oGen oAcc => rfl⟩

/-- C7: within one `fetchSpots` cycle the event phases are monotone — both
sub-request chains complete first, then both UI state updates, and any
notification comes last; the trace always contains both state updates, so
a notification is never emitted before the cycle's UI state update. -/
theorem C7_fetch_update_notify_order (st : AppState) (oGen oAcc : FetchOutcome) :
    List.Pairwise (fun e1 e2 => Event.phase e1 ≤ Event.phase e2)
      (fetchSpots st oGen oAcc).2 ∧
    (∃ g, Event.setSpots g ∈ (fetchSpots st oGen oAcc).2) ∧
    (∃ a, Event.setHandicapSpots a ∈ (fetchSpots st oGen oAcc).2) := by
  refine ⟨?_, ⟨catchLog 0 (requestChain oGen), ?_⟩,
    ⟨catchLog 0 (requestChain oAcc), ?_⟩⟩ <;>
    cases h : st.isInside <;>
      simp [fetchSpots, fetchSpotsE, h, Event.phase, pure, Except.pure,
        List.pairwise_cons]

/-- C8: over the whole process lifetime — the one-shot mount effects plus
any number of polls — exactly one token-registration POST is issued, with
JSON body `{ token: tok }`; no poll ever re-sends it. -/
theorem C8_single_token_post (tok : String) (st : AppState)
    (polls : List (FetchOutcome × FetchOutcome)) :
    (lifetimeTrace tok st polls).filter Event.isPostToken = [Event.postToken tok] := by
  simp [lifetimeTrace, registerTokenEffect, List.filter_append,
    pollsTrace_filter_postToken, Event.isPostToken, List.filter]

/-- C9: within a single `fetchSpots` invocation, the counts carried by a
notification are exactly the local values written to the UI state by that
invocation's `setSpots`/`setHandicapSpots` calls — the notified and
displayed counts of one poll agree, independent of the previous state. -/
theorem C9_notified_counts_match_displayed (st : AppState) (oGen oAcc : FetchOutcome)
    (g a : Int) (h : Event.notify g a ∈ (fetchSpots st oGen oAcc).2) :
    Event.setSpots g ∈ (fetchSpots st oGen oAcc).2 ∧
    Event.setHandicapSpots a ∈ (fetchSpots st oGen oAcc).2 ∧
    (fetchSpots st oGen oAcc).1.spots = g ∧
    (fetchSpots st oGen oAcc).1.handicapSpots = a := by
  cases hin : st.isInside <;>
    simp_all [fetchSpots, fetchSpotsE, hin, pure, Except.pure]

/-- C9 witness: from a stale rendered state (0, 0) while inside, with fresh
parsed counts 5 and 2, the notification carries 5 and 2 — the same values
written to the UI state. -/
theorem C9_notified_counts_match_displayed_witness :
    Event.notify 5 2 ∈ (fetchSpots ⟨0, 0, true⟩ (.success 5) (.success 2)).2 ∧
    (Event.setSpots 5 ∈ (fetchSpots ⟨0, 0, true⟩ (.success 5) (.success 2)).2 ∧
      Event.setHandicapSpots 2 ∈ (fetchSpots ⟨0, 0, true⟩ (.success 5) (.success 2)).2 ∧
      (fetchSpots ⟨0, 0, true⟩ (.success 5) (.success 2)).1.spots = 5 ∧
      (fetchSpots ⟨0, 0, true⟩ (.success 5) (.success 2)).1.handicapSpots = 2) :=
  ⟨by decide,
    C9_notified_counts_match_displayed ⟨0, 0, true⟩ (.success 5) (.success 2) 5 2 (by decide)⟩

/-- C10: the background fetch task returns `NewData` on every invocation,
for every outcome of the two sub-requests: since `fetchSpots` catches all
fetch and parse errors internally and never rejects, the `catch` branch
returning `Failed` is unreachable for fetch or parse failures. -/
theorem C10_background_task_newdata (st : AppState) (oGen oAcc : FetchOutcome) :
    (backgroundTask st oGen oAcc).2 = .newData := by
  rfl

end ParkSpotter
